import Mathlib

/-!
Verification development for the evmscn repository (multi_chain_monitor.py and
base_transfer_monitor.py): a shallow embedding of the event decoder, the
valuation engine, the webhook dispatcher, the HTTP poll loop and the
streaming-session retry behaviour, with theorems about the specified
properties.
-/

namespace Evmscn

/-- A model of the JSON-like Python values that flow through the monitors:
log records arrive as dictionaries whose fields may hold strings, numbers,
booleans, None, lists or nested dictionaries. -/
inductive Json where
  | null
  | bool (b : Bool)
  | num (n : Int)
  | str (s : String)
  | arr (xs : List Json)
  | obj (kvs : List (String × Json))

/-- Python `d.get(k, default)` on a dictionary modelled as an association
list (first binding wins; Python dicts have unique keys). -/
def dictGet (kvs : List (String × Json)) (k : String) (dflt : Json) : Json :=
  match kvs.lookup k with
  | some v => v
  | none => dflt

/-- Python `len(x)`: defined for strings, lists and dictionaries; raises
`TypeError` (modelled as `.error`) on every other value. -/
def pyLen : Json → Except Unit Nat
  | .str s => .ok s.length
  | .arr xs => .ok xs.length
  | .obj kvs => .ok kvs.length
  | _ => .error ()

/-- Python `x[i]` for a non-negative index: list indexing with an
`IndexError` out of range, string indexing yielding a one-character string,
and a `KeyError`/`TypeError` on every other value (an integer key is never
present in the string-keyed dictionaries modelled here). -/
def pyIndex : Json → Nat → Except Unit Json
  | .arr xs, i =>
    match xs.get? i with
    | some v => .ok v
    | none => .error ()
  | .str s, i =>
    match s.toList.get? i with
    | some c => .ok (.str (String.mk [c]))
    | none => .error ()
  | _, _ => .error ()

/-- The last `n` characters of a string, Python `s[-n:]` (the whole string
when it is shorter than `n`). -/
def strTakeRight (s : String) (n : Nat) : String :=
  String.mk (s.toList.drop (s.toList.length - n))

/-- Python `"0x" + t[-40:]` as used on a topic: defined only when the topic
is a string; on any other value the slice or the concatenation raises a
`TypeError` (modelled as `.error`). -/
def pyAddr40 : Json → Except Unit String
  | .str s => .ok ("0x" ++ strTakeRight s 40)
  | _ => .error ()

/-- Python `s.lower()` on a string. The addresses and hex fields handled
here are ASCII, so per-character ASCII lowercasing is a faithful model. -/
def strToLower (s : String) : String := String.mk (s.data.map Char.toLower)

/-- Python `x.lower()`: defined for strings only; `AttributeError`
otherwise. -/
def pyLower : Json → Except Unit String
  | .str s => .ok (strToLower s)
  | _ => .error ()

/-- Python truthiness of a value. -/
def pyTruthy : Json → Bool
  | .null => false
  | .bool b => b
  | .num n => n != 0
  | .str s => !s.isEmpty
  | .arr xs => !xs.isEmpty
  | .obj kvs => !kvs.isEmpty

/-- Python `x == "0x"` for an arbitrary value: true exactly when `x` is
the string `"0x"` (Python equality across types is false). -/
def isStr0x : Json → Bool
  | .str s => s == "0x"
  | _ => false

/-- The numeric value of one hexadecimal digit. -/
def hexDigit? (c : Char) : Option Nat :=
  if '0' ≤ c ∧ c ≤ '9' then some (c.toNat - '0'.toNat)
  else if 'a' ≤ c ∧ c ≤ 'f' then some (c.toNat - 'a'.toNat + 10)
  else if 'A' ≤ c ∧ c ≤ 'F' then some (c.toNat - 'A'.toNat + 10)
  else none

/-- The value of a non-empty run of hexadecimal digits. -/
def hexDigitsVal? (cs : List Char) : Option Nat :=
  cs.foldl (fun acc c => acc.bind fun a => (hexDigit? c).map fun d => a * 16 + d)
    (some 0)

/-- Python `int(s, 16)` on a string: an optional sign, an optional `0x` or
`0X` prefix, then at least one hexadecimal digit; anything else raises
`ValueError`. (Surrounding whitespace and `_` digit separators, which
Python also accepts, are not modelled; no input considered here uses
them.) -/
def hexParse? (s : String) : Option Int :=
  let cs := s.toList
  let signed := match cs with
    | '-' :: rest => (true, rest)
    | '+' :: rest => (false, rest)
    | _ => (false, cs)
  let body := match signed.2 with
    | '0' :: x :: rest => if x = 'x' ∨ x = 'X' then rest else '0' :: x :: rest
    | other => other
  if body.isEmpty then none
  else (hexDigitsVal? body).map fun n => if signed.1 then -(n : Int) else (n : Int)

/-- Python `int(x, 16)`: only strings are accepted; any other value raises
`TypeError`. -/
def pyIntBase16 : Json → Except Unit Int
  | .str s =>
    match hexParse? s with
    | some n => .ok n
    | none => .error ()
  | _ => .error ()

/-- The Transfer record built by `decode_transfer_log`: a dictionary with
sender, recipient, contract, raw amount, transaction hash and block number
(the last two are whatever JSON values the log carried, possibly null). -/
structure Transfer where
  sender : String
  recipient : String
  contract : String
  amount_raw : Int
  tx_hash : Json
  block_number : Json

namespace MultiChain

/-- The body of `decode_transfer_log` in multi_chain_monitor.py (lines
755-779), with every Python operation that can raise modelled in the
`Except` monad: `.error` is an exception reaching the function's
`except Exception` handler, `.ok none` is the explicit `return None` for
fewer than 3 topics, `.ok (some t)` is a decoded Transfer. The amount
condition is `data and data != "0x"`. -/
def decodeTransferLogBody (log : List (String × Json)) : Except Unit (Option Transfer) :=
  let topics := dictGet log "topics" (.arr [])
  match pyLen topics with
  | .error e => .error e
  | .ok n =>
    if n < 3 then .ok none
    else
      match pyIndex topics 1 with
      | .error e => .error e
      | .ok t1 =>
        match pyIndex topics 2 with
        | .error e => .error e
        | .ok t2 =>
          match pyAddr40 t1 with
          | .error e => .error e
          | .ok sender =>
            match pyAddr40 t2 with
            | .error e => .error e
            | .ok recipient =>
              let data := dictGet log "data" (.str "0x0")
              match (if pyTruthy data && !(isStr0x data)
                     then pyIntBase16 data else .ok 0) with
              | .error e => .error e
              | .ok amount_raw =>
                match pyLower (dictGet log "address" (.str "")) with
                | .error e => .error e
                | .ok contract =>
                  .ok (some
                    { sender := strToLower sender
                      recipient := strToLower recipient
                      contract := contract
                      amount_raw := amount_raw
                      tx_hash := dictGet log "transactionHash" .null
                      block_number := dictGet log "blockNumber" .null })

/-- `decode_transfer_log` of multi_chain_monitor.py: the body wrapped in
`try/except Exception: return None`. -/
def decode_transfer_log (log : List (String × Json)) : Option Transfer :=
  match decodeTransferLogBody log with
  | .ok v => v
  | .error _ => none

/-- Console lines emitted by the multi-chain `decode_transfer_log`: its
`except` branch is a bare `return None`, so it prints nothing on any
input. -/
def decode_log_output (_log : List (String × Json)) : List String := []

end MultiChain

namespace BaseMonitor

/-- The body of `decode_transfer_log` in base_transfer_monitor.py (lines
133-162). Identical to the multi-chain body except for the amount
condition, which is `data != "0x"` with no truthiness guard: an empty
`data` string reaches `int("", 16)` and raises `ValueError`. -/
def decodeTransferLogBody (log : List (String × Json)) : Except Unit (Option Transfer) :=
  let topics := dictGet log "topics" (.arr [])
  match pyLen topics with
  | .error e => .error e
  | .ok n =>
    if n < 3 then .ok none
    else
      match pyIndex topics 1 with
      | .error e => .error e
      | .ok t1 =>
        match pyIndex topics 2 with
        | .error e => .error e
        | .ok t2 =>
          match pyAddr40 t1 with
          | .error e => .error e
          | .ok sender =>
            match pyAddr40 t2 with
            | .error e => .error e
            | .ok recipient =>
              let data := dictGet log "data" (.str "0x0")
              match (if !(isStr0x data)
                     then pyIntBase16 data else .ok 0) with
              | .error e => .error e
              | .ok amount_raw =>
                match pyLower (dictGet log "address" (.str "")) with
                | .error e => .error e
                | .ok contract =>
                  .ok (some
                    { sender := strToLower sender
                      recipient := strToLower recipient
                      contract := contract
                      amount_raw := amount_raw
                      tx_hash := dictGet log "transactionHash" .null
                      block_number := dictGet log "blockNumber" .null })

/-- `decode_transfer_log` of base_transfer_monitor.py: the body wrapped in
`try/except Exception` which prints a diagnostic and returns None. -/
def decode_transfer_log (log : List (String × Json)) : Option Transfer :=
  match decodeTransferLogBody log with
  | .ok v => v
  | .error _ => none

/-- Console lines emitted by the base `decode_transfer_log`: its `except`
branch executes `print(f"Error decoding log: {e}")` before returning
None, so exactly the inputs whose body raises produce one diagnostic
line. -/
def decode_log_output (log : List (String × Json)) : List String :=
  match decodeTransferLogBody log with
  | .ok _ => []
  | .error _ => ["Error decoding log"]

end BaseMonitor

/-- Round a rational to the nearest integer, ties to even (banker's
rounding, `ROUND_HALF_EVEN`). -/
def halfEvenRound (x : ℚ) : Int :=
  if x - (⌊x⌋ : ℚ) < 1/2 then ⌊x⌋
  else if 1/2 < x - (⌊x⌋ : ℚ) then ⌊x⌋ + 1
  else if ⌊x⌋ % 2 = 0 then ⌊x⌋ else ⌊x⌋ + 1

/-- Round `q` to `p` significant base-`b` digits, half to even: the
rounding shared by Python's default `decimal` context (`b = 10`, `p = 28`,
`ROUND_HALF_EVEN`) and by IEEE-754 binary64 (`b = 2`, `p = 53`). The
magnitudes handled in this development lie far inside binary64's normal
range, so exponent overflow and subnormal underflow are not modelled. -/
def roundSig (b p : Nat) (q : ℚ) : ℚ :=
  if q = 0 then 0
  else
    (if q < 0 then -1 else 1)
      * (halfEvenRound (|q| * (b : ℚ) ^ ((p : Int) - 1 - Int.log b |q|)) : ℚ)
      * (b : ℚ) ^ (-((p : Int) - 1 - Int.log b |q|))

/-- `float(x)` applied to an exact numeric value (a `Decimal` or a decimal
literal in source text): the correctly-rounded conversion to IEEE-754
binary64, i.e. round to 53 significant bits, half to even. -/
def pyFloat (q : ℚ) : ℚ := roundSig 2 53 q

/-- IEEE-754 binary64 multiplication of two float values: the exact
product, correctly rounded back to 53 significant bits. -/
def pyFloatMul (x y : ℚ) : ℚ := roundSig 2 53 (x * y)

/-- `Decimal(a) / Decimal(10 ** d)` under Python's default decimal
context: `Decimal(int)` conversion is exact, and the division returns the
exact quotient rounded to 28 significant digits, half to even (exact
whenever the quotient fits in 28 digits). -/
def pyDecimalDiv (a : Int) (d : Nat) : ℚ :=
  roundSig 10 28 ((a : ℚ) / 10 ^ d)

/-- Per-token metadata as configured: symbol, decimal precision and the
current fiat unit price. `price_usd` holds the decimal literal written in
the source; the Python float the interpreter stores for it is its
binary64 value `pyFloat price_usd`. -/
structure TokenInfo where
  symbol : String
  decimals : Nat
  price_usd : ℚ
deriving Repr, DecidableEq

namespace MultiChain

/-- `calculate_usd_value` of multi_chain_monitor.py (lines 782-796):
`amount = Decimal(amount_raw) / Decimal(10 ** decimals)` (28-digit
decimal context), then `usd_value = float(amount) * price` — the Decimal
converted to binary64 and multiplied, in binary64, by the stored float
price. Returns `(usd_value, symbol)`, or None when the lower-cased
contract address is not in the chain's token mapping. -/
def calculate_usd_value (tokens : List (String × TokenInfo)) (contract : String)
    (amount_raw : Int) : Option (ℚ × String) :=
  let contract_lower := strToLower contract
  match tokens.lookup contract_lower with
  | none => none
  | some token_info =>
    let amount : ℚ := pyDecimalDiv amount_raw token_info.decimals
    some (pyFloatMul (pyFloat amount) (pyFloat token_info.price_usd),
          token_info.symbol)

end MultiChain

namespace BaseMonitor

/-- `TOP_TOKENS` of base_transfer_monitor.py (lines 32-93): the Base-chain
token table, address → {symbol, decimals, price_usd}, with the seed prices
of the source. -/
def TOP_TOKENS : List (String × TokenInfo) :=
  [ ("0x4200000000000000000000000000000000000006", ⟨"WETH", 18, 2500.0⟩)
  , ("0x833589fcd6edb6e08f4c7c32d4f71b54bda02913", ⟨"USDC", 6, 1.0⟩)
  , ("0xd9aaec86b65d86f6a7b5b1b0c42ffa531710b6ca", ⟨"USDbC", 6, 1.0⟩)
  , ("0x50c5725949a6f0c72e6c4a641f24049a917db0cb", ⟨"DAI", 18, 1.0⟩)
  , ("0x2ae3f1ec7f1f5012cfeab0185bfc7aa3cf0dec22", ⟨"cbETH", 18, 2650.0⟩)
  , ("0x940181a94a35a4569e4529a3cdfb74e38fd98631", ⟨"AERO", 18, 1.50⟩)
  , ("0x532f27101965dd16442e59d40670faf5ebb142e4", ⟨"BRETT", 18, 0.15⟩)
  , ("0x4ed4e862860bed51a9570b96d89af5e1b0efefed", ⟨"DEGEN", 18, 0.01⟩)
  , ("0xac1bd2486aaf3b5c0fc3fd868558b082a531b2b4", ⟨"TOSHI", 18, 0.0003⟩)
  , ("0xa88594d404727625a9437c3f886c7643872296ae", ⟨"WELL", 18, 0.05⟩) ]

/-- `calculate_usd_value` of base_transfer_monitor.py (lines 165-179):
same computation as the multi-chain variant — Decimal division then
binary64 multiplication — over the global `TOP_TOKENS` table, returning
only the value. -/
def calculate_usd_value (contract : String) (amount_raw : Int) : Option ℚ :=
  let contract_lower := strToLower contract
  match TOP_TOKENS.lookup contract_lower with
  | none => none
  | some token_info =>
    let amount : ℚ := pyDecimalDiv amount_raw token_info.decimals
    some (pyFloatMul (pyFloat amount) (pyFloat token_info.price_usd))

end BaseMonitor

/-- `ChainConfig` of multi_chain_monitor.py (lines 29-36): identity,
RPC endpoint, token table, optional streaming endpoint and poll
interval. -/
structure ChainConfig where
  name : String
  chain_id : Int
  rpc_url : String
  tokens : List (String × TokenInfo)
  wss : Option String := none
  poll_interval : ℚ := 2.0

namespace MultiChain

/-- `WEBHOOK_URLS` of multi_chain_monitor.py (lines 17-20). -/
def WEBHOOK_URLS : List String :=
  [ "http://64.247.196.44:3000/webhook"
  , "https://webhook.site/d2fb592f-72ac-458b-872c-acfa3c76b607" ]

/-- `MIN_USD_VALUE` of multi_chain_monitor.py (line 23). -/
def MIN_USD_VALUE : ℚ := 100000

/-- The Avalanche entry of the `CHAINS` list (multi_chain_monitor.py lines
702-719): an HTTP-only chain (no streaming endpoint), used as a concrete
instance of the configuration data. -/
def avalancheConfig : ChainConfig :=
  { name := "Avalanche"
    chain_id := 43114
    rpc_url := "https://api-avalanche-mainnet-archive.n.dwellir.com/e5433693-bdd2-4168-851b-acaf16f10400/ext/bc/C/rpc"
    tokens :=
      [ ("0xb31f66aa3c1e785363f0875a1b74e27b85fd66c7", ⟨"WAVAX", 18, 25.0⟩)
      , ("0xb97ef9ef8734c71904d8002f8b6bc66dd9c48a6e", ⟨"USDC", 6, 1.0⟩)
      , ("0x9702230a8ea53601f5cd2dc00fdbc13d4df4a8c7", ⟨"USDT", 6, 1.0⟩)
      , ("0x49d5c2bdffac6ce2bfdb6640f4f80f226bc10bab", ⟨"WETH.e", 18, 2500.0⟩)
      , ("0x50b7545627a5162f82a992c33b87adc75187b218", ⟨"WBTC.e", 8, 95000.0⟩)
      , ("0xd586e7f844cea2f87f50152665bcbc2c279d8d70", ⟨"DAI.e", 18, 1.0⟩)
      , ("0x2b2c81e08f1af8835a78bb2a90ae924ace0ea4be", ⟨"sAVAX", 18, 27.0⟩)
      , ("0xa7d7079b0fead91f3e65f86e8915cb59c1a4c664", ⟨"USDC.e", 6, 1.0⟩)
      , ("0x152b9d0fdc40c096de345726606e39f0957e02ef", ⟨"BTCb", 8, 95000.0⟩)
      , ("0x5947bb275c521040051d82396192181b413227a3", ⟨"LINK.e", 18, 18.0⟩) ]
    wss := none
    poll_interval := 2.0 }

end MultiChain

/-- The outcome the environment produces for one HTTP POST to one sink:
either a response with a status code, or a raised exception (timeout or
any transport error). -/
inductive PostResult where
  | status (code : Nat)
  | exn
deriving Repr, DecidableEq

/-- The `for url in WEBHOOK_URLS:` loop shared by both `send_to_webhook`
functions: each sink is posted to inside its own `try/except Exception`,
so whichever of the two outcomes occurs, the attempt is recorded (a log
line is printed) and the loop moves to the next sink. `post` is the
environment's response to each URL for this one event. -/
def deliverLoop (post : String → PostResult) : List String → List (String × PostResult)
  | [] => []
  | url :: rest =>
    match post url with
    | .status c => (url, .status c) :: deliverLoop post rest
    | .exn => (url, .exn) :: deliverLoop post rest

namespace MultiChain

/-- The JSON payload built by `send_to_webhook` of multi_chain_monitor.py
(lines 803-810), as an ordered field list. `chain.wss or ""` is modelled
by `Option.getD`: the only falsy string is `""`, on which both agree. -/
def webhookPayload (chain : ChainConfig) (transfer : Transfer) : List (String × Json) :=
  [ ("r", .str transfer.recipient)
  , ("s", .str transfer.sender)
  , ("contract", .str transfer.contract)
  , ("chain_id", .num chain.chain_id)
  , ("wss", .str (chain.wss.getD ""))
  , ("rpc_url", .str chain.rpc_url) ]

/-- `send_to_webhook` of multi_chain_monitor.py (lines 799-825): builds the
payload once and then posts it to every configured webhook URL in order,
returning the payload and the per-sink attempt record. -/
def send_to_webhook (post : String → PostResult) (chain : ChainConfig)
    (transfer : Transfer) : List (String × Json) × List (String × PostResult) :=
  (webhookPayload chain transfer, deliverLoop post WEBHOOK_URLS)

end MultiChain

namespace BaseMonitor

/-- `WSS_URL` of base_transfer_monitor.py (line 16). -/
def WSS_URL : String :=
  "wss://api-base-mainnet-archive.n.dwellir.com/e5433693-bdd2-4168-851b-acaf16f10400"

/-- `WEBHOOK_URLS` of base_transfer_monitor.py (lines 19-22). -/
def WEBHOOK_URLS : List String :=
  [ "http://64.247.196.44:3000/webhook"
  , "https://webhook.site/d2fb592f-72ac-458b-872c-acfa3c76b607" ]

/-- `MIN_USD_VALUE` of base_transfer_monitor.py (line 25). -/
def MIN_USD_VALUE : ℚ := 500

/-- The JSON payload built by `send_to_webhook` of base_transfer_monitor.py
(lines 184-191): the chain identity and endpoints are the hard-coded Base
values. -/
def webhookPayload (transfer : Transfer) : List (String × Json) :=
  [ ("r", .str transfer.recipient)
  , ("s", .str transfer.sender)
  , ("contract", .str transfer.contract)
  , ("chain_id", .num 8453)
  , ("wss", .str WSS_URL)
  , ("rpc_url", .str "https://api-base-mainnet-archive.n.dwellir.com/e5433693-bdd2-4168-851b-acaf16f10400") ]

/-- `send_to_webhook` of base_transfer_monitor.py (lines 182-201): posts
the payload to every configured webhook URL in order. -/
def send_to_webhook (post : String → PostResult) (transfer : Transfer) :
    List (String × Json) × List (String × PostResult) :=
  (webhookPayload transfer, deliverLoop post WEBHOOK_URLS)

end BaseMonitor

namespace MultiChain

/-- How long one iteration of the poll loop sleeps before the next
iteration: `asyncio.sleep(chain.poll_interval)` on the normal paths,
`asyncio.sleep(10)` in the `except` branch. -/
inductive Sleep where
  | interval
  | ten
deriving Repr, DecidableEq

/-- The environment's behaviour during one iteration of the
`monitor_chain_http` loop. `height = none`: the `eth_blockNumber`
request raises (HTTP error, non-JSON body, or a non-hex-numeric result
string, which raises at `int(current_block, 16)`). `height = some none`:
the request succeeded but the response's `"result"` field is missing or
falsy. `height = some (some h)`: the current height parsed as `h`.
`logsOk`: whether the `eth_getLogs` request (issued only when a fresh
range exists) returns and parses without an exception. -/
structure PollIter where
  height : Option (Option Nat)
  logsOk : Bool
deriving Repr, DecidableEq

/-- What one iteration of the poll loop did: the cursor (`last_block`)
after the iteration, the block range passed to `eth_getLogs` if a query
was issued, whether that query succeeded, and which sleep ended the
iteration. -/
structure PollOutcome where
  cursor : Option Nat
  queried : Option (Nat × Nat)
  logsSuccess : Bool
  sleep : Sleep
deriving Repr, DecidableEq

/-- One iteration of the `while True:` loop of `monitor_chain_http`
(multi_chain_monitor.py lines 910-968), as a function of the cursor
(`last_block`, block numbers modelled as naturals — the source stores hex
strings and compares them via `int(_, 16)`) and the environment's
behaviour. Decoding, valuation and webhook delivery of returned logs
never raise (the decoder catches its exceptions and the dispatcher
catches per-sink exceptions), so on a successful query the iteration
always reaches `last_block = current_block`. -/
def pollStep (cursor : Option Nat) (it : PollIter) : PollOutcome :=
  match it.height with
  | none => ⟨cursor, none, false, .ten⟩
  | some none => ⟨cursor, none, false, .interval⟩
  | some (some h) =>
    match cursor with
    | none => ⟨some h, none, false, .interval⟩
    | some c =>
      if h < c + 1 then ⟨some c, none, false, .interval⟩
      else if it.logsOk then ⟨some h, some (c + 1, h), true, .interval⟩
      else ⟨some c, some (c + 1, h), false, .ten⟩

end MultiChain

/-- How a suspended streaming session resumes: the source loops forever,
so every iteration outcome reconnects after some delay; `terminate` is
never produced by either monitor. -/
inductive SessionNext where
  | reconnect (delaySeconds : Nat)
  | terminate
deriving Repr, DecidableEq

/-- How the message loop of a session iteration ended once a subscription
was confirmed. When the server closes the connection normally (close code
1000/1001), the `websockets` message iterator swallows
`ConnectionClosedOK` and `async for message in ws` simply finishes
without raising (`closedOk`); an abnormal closure raises
`ConnectionClosedError`, a subclass of `ConnectionClosed`
(`closedError`); any other exception during the loop is `error`. -/
inductive StreamEnd where
  | closedOk
  | closedError
  | error
deriving Repr, DecidableEq

/-- The observable outcome of one iteration of a streaming session's
`while True:` loop. -/
inductive StreamIterEvent where
  | connectError
  | subRecvClosed
  | subUnexpected
  | subConfirmedThen (e : StreamEnd)
deriving Repr, DecidableEq

namespace MultiChain

/-- What `monitor_chain` (multi_chain_monitor.py lines 828-898) does after
each possible iteration outcome: a generic exception (connect failure, an
error receiving the subscription response, a stream read error) sleeps
10s; a raised `websockets.exceptions.ConnectionClosed` sleeps 5s; a
subscription response without a `"result"` field sleeps 10s and
`continue`s; and when the stream ends by a normal closure the message
iterator finishes silently, no handler runs, and the loop body falls
through to the top of `while True` — an immediate reconnect with no
sleep. Every outcome returns to the top of the loop, i.e. reconnects. -/
def streamIterNext : StreamIterEvent → SessionNext
  | .connectError => .reconnect 10
  | .subRecvClosed => .reconnect 5
  | .subUnexpected => .reconnect 10
  | .subConfirmedThen .closedOk => .reconnect 0
  | .subConfirmedThen .closedError => .reconnect 5
  | .subConfirmedThen .error => .reconnect 10

end MultiChain

namespace BaseMonitor

/-- What `monitor_transfers` (base_transfer_monitor.py lines 211-293) does
after each possible iteration outcome: both exception handlers sleep 5s;
a subscription response without a `"result"` field executes a bare
`continue` — an immediate retry from the connect step with no sleep; and
a normally-closed stream ends the message iterator without raising, so
the loop likewise reconnects immediately with no sleep. Every outcome
returns to the top of the loop. -/
def streamIterNext : StreamIterEvent → SessionNext
  | .connectError => .reconnect 5
  | .subRecvClosed => .reconnect 5
  | .subUnexpected => .reconnect 0
  | .subConfirmedThen .closedOk => .reconnect 0
  | .subConfirmedThen .closedError => .reconnect 5
  | .subConfirmedThen .error => .reconnect 5

end BaseMonitor

/-! ### Helper lemmas -/

/-- Full case analysis of one poll iteration starting from a set cursor:
either no log query is issued and the cursor is untouched, or the observed
height `h` is at least `cursor + 1`, the queried range is
`(cursor + 1, h)`, and the cursor advances to `h` exactly when the query
succeeds. -/
theorem pollStep_spec (c : Nat) (it : MultiChain.PollIter) :
    ((MultiChain.pollStep (some c) it).queried = none
      ∧ (MultiChain.pollStep (some c) it).cursor = some c
      ∧ (MultiChain.pollStep (some c) it).logsSuccess = false)
    ∨ (∃ h, it.height = some (some h) ∧ c + 1 ≤ h
        ∧ (MultiChain.pollStep (some c) it).queried = some (c + 1, h)
        ∧ ((it.logsOk = true
              ∧ (MultiChain.pollStep (some c) it).cursor = some h
              ∧ (MultiChain.pollStep (some c) it).logsSuccess = true)
           ∨ (it.logsOk = false
              ∧ (MultiChain.pollStep (some c) it).cursor = some c
              ∧ (MultiChain.pollStep (some c) it).logsSuccess = false))) := by
  rcases it with ⟨ho, lk⟩
  rcases ho with _ | (_ | h)
  · left; exact ⟨rfl, rfl, rfl⟩
  · left; exact ⟨rfl, rfl, rfl⟩
  by_cases hlt : h < c + 1
  · left
    simp [MultiChain.pollStep, hlt]
  · right
    refine ⟨h, rfl, by omega, ?_, ?_⟩ <;> cases lk <;>
      simp [MultiChain.pollStep, hlt]

/-- Every issued query starts exactly one block past the cursor and covers
a non-empty range. -/
theorem pollStep_queried_start (c : Nat) (it : MultiChain.PollIter) (lo hi : Nat)
    (hq : (MultiChain.pollStep (some c) it).queried = some (lo, hi)) :
    lo = c + 1 ∧ lo ≤ hi := by
  rcases pollStep_spec c it with ⟨hn, _, _⟩ | ⟨h, _, hch, hq2, _⟩
  · rw [hn] at hq; cases hq
  · rw [hq2] at hq
    have : c + 1 = lo ∧ h = hi := by
      have := Option.some.inj hq
      exact ⟨congrArg Prod.fst this, congrArg Prod.snd this⟩
    omega

/-! ### Claims -/

/-- Claim C1: for every polling-mode chain session, the poll cursor, once
set, never decreases, and every successful log query covers exactly the
block range `(cursor + 1 .. currentHeight)`: whenever iteration N succeeds
with a range ending at height H, the cursor becomes H, and whichever later
query is issued next (here: the immediately following iteration, the
cursor being unchanged by non-querying or failing iterations) starts at
H + 1 — contiguous, no gap, no overlap. -/
theorem poll_cursor_monotone_and_ranges_contiguous (c : Nat)
    (it it' : MultiChain.PollIter) :
    (∃ c', (MultiChain.pollStep (some c) it).cursor = some c' ∧ c ≤ c')
    ∧ (∀ lo hi, (MultiChain.pollStep (some c) it).queried = some (lo, hi) →
        lo = c + 1 ∧ lo ≤ hi)
    ∧ ((MultiChain.pollStep (some c) it).logsSuccess = true →
        ∀ lo hi, (MultiChain.pollStep (some c) it).queried = some (lo, hi) →
          (MultiChain.pollStep (some c) it).cursor = some hi
          ∧ (∀ lo' hi',
              (MultiChain.pollStep (MultiChain.pollStep (some c) it).cursor it').queried
                = some (lo', hi') → lo' = hi + 1)) := by
  refine ⟨?_, fun lo hi hq => pollStep_queried_start c it lo hi hq, ?_⟩
  · rcases pollStep_spec c it with ⟨_, hc, _⟩ | ⟨h, _, hch, _, (⟨_, hc, _⟩ | ⟨_, hc, _⟩)⟩
    · exact ⟨c, hc, Nat.le_refl c⟩
    · exact ⟨h, hc, by omega⟩
    · exact ⟨c, hc, Nat.le_refl c⟩
  · intro hs lo hi hq
    rcases pollStep_spec c it with ⟨hn, _, _⟩ | ⟨h, _, hch, hq2, hcase⟩
    · rw [hn] at hq; cases hq
    rcases hcase with ⟨_, hc, _⟩ | ⟨_, _, hfail⟩
    · rw [hq2] at hq
      have hpair := Option.some.inj hq
      have hhi : h = hi := congrArg Prod.snd hpair
      subst hhi
      refine ⟨hc, fun lo' hi' hq' => ?_⟩
      rw [hc] at hq'
      exact (pollStep_queried_start h it' lo' hi' hq').1
    · rw [hfail] at hs; cases hs

/-- Witness for C1 at a concrete run: cursor 5, height 9, successful
query gives range (6, 9) and cursor 9; the following iteration at height
12 queries (10, 12), which starts at 9 + 1. -/
theorem poll_cursor_contiguity_witness :
    (MultiChain.pollStep (some 5) ⟨some (some 9), true⟩).cursor = some 9
    ∧ (10 : Nat) = 9 + 1 := by
  have h := poll_cursor_monotone_and_ranges_contiguous 5
    ⟨some (some 9), true⟩ ⟨some (some 12), true⟩
  have h3 := h.2.2 rfl 6 9 rfl
  exact ⟨h3.1, h3.2 10 12 (by rw [h3.1]; rfl)⟩

/-- Claim C2: in poll mode, an iteration whose get-logs query fails leaves
the cursor unchanged, so the retried query starts from the same block: the
next iteration's query begins at the same `fromBlock`, and when it observes
the same height it queries the identical range. -/
theorem poll_failed_query_leaves_cursor_and_range (c : Nat)
    (it : MultiChain.PollIter) (lo hi : Nat) (b : Bool)
    (hq : (MultiChain.pollStep (some c) it).queried = some (lo, hi))
    (hf : (MultiChain.pollStep (some c) it).logsSuccess = false) :
    (MultiChain.pollStep (some c) it).cursor = some c
    ∧ (MultiChain.pollStep (some c) ⟨some (some hi), b⟩).queried = some (lo, hi)
    ∧ (∀ h', hi ≤ h' →
        (MultiChain.pollStep (some c) ⟨some (some h'), b⟩).queried = some (lo, h')) := by
  rcases pollStep_spec c it with ⟨hn, _, _⟩ | ⟨h, _, hch, hq2, hcase⟩
  · rw [hn] at hq; cases hq
  rw [hq2] at hq
  have hpair := Option.some.inj hq
  have hlo : c + 1 = lo := congrArg Prod.fst hpair
  have hhi : h = hi := congrArg Prod.snd hpair
  subst hlo; subst hhi
  have hcur : (MultiChain.pollStep (some c) it).cursor = some c := by
    rcases hcase with ⟨_, _, hs⟩ | ⟨_, hc, _⟩
    · rw [hs] at hf; cases hf
    · exact hc
  refine ⟨hcur, ?_, ?_⟩
  · have : ¬ h < c + 1 := by omega
    cases b <;> simp [MultiChain.pollStep, this]
  · intro h' hh'
    have : ¬ h' < c + 1 := by omega
    cases b <;> simp [MultiChain.pollStep, this]

/-- Witness for C2 at a concrete run: cursor 5, height 9, failed query of
(6, 9): the cursor stays 5 and the next iteration at the same height
queries (6, 9) again. -/
theorem poll_failed_query_witness :
    (MultiChain.pollStep (some 5) ⟨some (some 9), false⟩).cursor = some 5
    ∧ (MultiChain.pollStep (some 5) ⟨some (some 9), true⟩).queried = some (6, 9) := by
  have h := poll_failed_query_leaves_cursor_and_range 5
    ⟨some (some 9), false⟩ 6 9 true rfl rfl
  exact ⟨h.1, h.2.1⟩

/-- Claim C10: in poll mode, an iteration in which the block-height
response lacks a truthy "result" field leaves the cursor unchanged,
issues no log query, and sleeps the poll interval (not the 10s error
fallback) before retrying the height query. -/
theorem poll_missing_height_result_skips (cursor : Option Nat)
    (it : MultiChain.PollIter) (h : it.height = some none) :
    MultiChain.pollStep cursor it =
      { cursor := cursor, queried := none, logsSuccess := false,
        sleep := MultiChain.Sleep.interval } := by
  rcases it with ⟨ho, lk⟩
  cases h
  rfl

/-- Witness for C10 at a concrete input. -/
theorem poll_missing_height_witness :
    MultiChain.pollStep (some 7) ⟨some none, true⟩ =
      { cursor := some 7, queried := none, logsSuccess := false,
        sleep := MultiChain.Sleep.interval } :=
  poll_missing_height_result_skips (some 7) ⟨some none, true⟩ rfl

/-- Counterexample to claim C9: in the base monitor's streaming session, an
unexpected (non-confirmation) subscription response does not wait the 10s
delay — the `else` branch is a bare `continue`, an immediate retry with no
sleep. -/
theorem stream_sub_failure_delay_counterexample :
    BaseMonitor.streamIterNext .subUnexpected = SessionNext.reconnect 0
    ∧ BaseMonitor.streamIterNext .subUnexpected ≠ SessionNext.reconnect 10 := by
  exact ⟨rfl, by decide⟩

/-- Claim C9 as amended: in the multi-chain monitor's streaming session,
an unexpected subscription response or a generic raised error waits 10s
and retries from the Connecting state, while a raised connection-closed
error waits 5s; a normally-closed stream (close code 1000/1001) ends the
message iterator without raising, so both monitors then retry from
Connecting immediately with no wait; in the base monitor, an unexpected
subscription response also retries immediately with no wait, and any
raised error waits 5s. In both monitors every iteration outcome leads to
a reconnect — the session never terminates. -/
theorem stream_sub_failure_retry_amended :
    MultiChain.streamIterNext .subUnexpected = SessionNext.reconnect 10
    ∧ MultiChain.streamIterNext (.subConfirmedThen .error) = SessionNext.reconnect 10
    ∧ MultiChain.streamIterNext .connectError = SessionNext.reconnect 10
    ∧ MultiChain.streamIterNext .subRecvClosed = SessionNext.reconnect 5
    ∧ MultiChain.streamIterNext (.subConfirmedThen .closedError) = SessionNext.reconnect 5
    ∧ MultiChain.streamIterNext (.subConfirmedThen .closedOk) = SessionNext.reconnect 0
    ∧ BaseMonitor.streamIterNext .subUnexpected = SessionNext.reconnect 0
    ∧ BaseMonitor.streamIterNext .connectError = SessionNext.reconnect 5
    ∧ BaseMonitor.streamIterNext (.subConfirmedThen .error) = SessionNext.reconnect 5
    ∧ BaseMonitor.streamIterNext (.subConfirmedThen .closedOk) = SessionNext.reconnect 0
    ∧ (∀ e, ∃ d, MultiChain.streamIterNext e = SessionNext.reconnect d)
    ∧ (∀ e, ∃ d, BaseMonitor.streamIterNext e = SessionNext.reconnect d) := by
  refine ⟨rfl, rfl, rfl, rfl, rfl, rfl, rfl, rfl, rfl, rfl, ?_, ?_⟩ <;>
    intro e <;> rcases e with _ | _ | _ | (_ | _ | _) <;> exact ⟨_, rfl⟩

/-- Claim C3: the dispatcher attempts delivery to every configured sink
exactly once, in order; each attempt's outcome is whatever the environment
returns for that sink alone (so one sink's timeout, error status or
transport failure has no effect on the other attempts), and no sink is
attempted twice for the same event. -/
theorem dispatcher_attempts_every_sink_once_in_order
    (post : String → PostResult) (urls : List String)
    (chain : ChainConfig) (t : Transfer) :
    deliverLoop post urls = urls.map (fun u => (u, post u))
    ∧ (deliverLoop post urls).map Prod.fst = urls
    ∧ (∀ u, ((deliverLoop post urls).map Prod.fst).count u = urls.count u)
    ∧ (MultiChain.send_to_webhook post chain t).2
        = MultiChain.WEBHOOK_URLS.map (fun u => (u, post u))
    ∧ (BaseMonitor.send_to_webhook post t).2
        = BaseMonitor.WEBHOOK_URLS.map (fun u => (u, post u))
    ∧ MultiChain.WEBHOOK_URLS.Nodup
    ∧ BaseMonitor.WEBHOOK_URLS.Nodup := by
  have key : ∀ l : List String, deliverLoop post l = l.map (fun u => (u, post u)) := by
    intro l
    induction l with
    | nil => rfl
    | cons u rest ih =>
      cases hpu : post u <;> simp [deliverLoop, hpu, ih]
  have fsts : (deliverLoop post urls).map Prod.fst = urls := by
    rw [key]; simp [List.map_map, Function.comp_def]
  refine ⟨key urls, fsts, fun u => by rw [fsts], ?_, ?_, ?_, ?_⟩
  · exact key MultiChain.WEBHOOK_URLS
  · exact key BaseMonitor.WEBHOOK_URLS
  · decide
  · decide

/-- Counterexample to claim C7: the JSON object POSTed to the sinks does
not carry the field names {recipient, sender, contract, chain_id,
stream_endpoint, rpc_endpoint} — evaluated at a concrete chain and
transfer, its keys are {r, s, contract, chain_id, wss, rpc_url}. -/
theorem payload_field_names_counterexample :
    (MultiChain.webhookPayload MultiChain.avalancheConfig
        { sender := "0xaa", recipient := "0xbb", contract := "0xcc",
          amount_raw := 0, tx_hash := .null, block_number := .null }).map Prod.fst
      ≠ ["recipient", "sender", "contract", "chain_id",
         "stream_endpoint", "rpc_endpoint"] := by
  decide

/-- Claim C7 as amended: for every dispatched transfer, the JSON object
POSTed to each sink has exactly six fields, under the key names
{r, s, contract, chain_id, wss, rpc_url}, carrying the transfer's
recipient, sender and contract address, the owning chain's numeric id,
and the chain's configured streaming and RPC endpoints as supplied by
configuration (the streaming field is the empty string for a chain with
no streaming endpoint; the base monitor hard-codes the Base chain's id
8453 and endpoints). -/
theorem payload_fields_amended (chain : ChainConfig) (t : Transfer)
    (post : String → PostResult) :
    (MultiChain.webhookPayload chain t).map Prod.fst
        = ["r", "s", "contract", "chain_id", "wss", "rpc_url"]
    ∧ (MultiChain.webhookPayload chain t).lookup "r" = some (.str t.recipient)
    ∧ (MultiChain.webhookPayload chain t).lookup "s" = some (.str t.sender)
    ∧ (MultiChain.webhookPayload chain t).lookup "contract" = some (.str t.contract)
    ∧ (MultiChain.webhookPayload chain t).lookup "chain_id" = some (.num chain.chain_id)
    ∧ (MultiChain.webhookPayload chain t).lookup "wss" = some (.str (chain.wss.getD ""))
    ∧ (MultiChain.webhookPayload chain t).lookup "rpc_url" = some (.str chain.rpc_url)
    ∧ (MultiChain.send_to_webhook post chain t).1 = MultiChain.webhookPayload chain t
    ∧ (BaseMonitor.webhookPayload t).map Prod.fst
        = ["r", "s", "contract", "chain_id", "wss", "rpc_url"]
    ∧ (BaseMonitor.webhookPayload t).lookup "r" = some (.str t.recipient)
    ∧ (BaseMonitor.webhookPayload t).lookup "chain_id" = some (.num 8453)
    ∧ (BaseMonitor.webhookPayload t).lookup "wss" = some (.str BaseMonitor.WSS_URL)
    ∧ (BaseMonitor.send_to_webhook post t).1 = BaseMonitor.webhookPayload t :=
  ⟨rfl, rfl, rfl, rfl, rfl, rfl, rfl, rfl, rfl, rfl, rfl, rfl, rfl⟩

/-- A log record whose topic list has three entries that are numbers, not
strings: slicing a number raises `TypeError` inside the decoder's `try`
block. -/
def malformedTopicsLog : List (String × Json) :=
  [("topics", .arr [.num 1, .num 2, .num 3])]

/-- Counterexample to claim C4: the base monitor's decoder is not free of
side effects — on a malformed input whose body raises, its `except` branch
prints a diagnostic line before returning None. -/
theorem decoder_base_side_effect_counterexample :
    BaseMonitor.decode_log_output malformedTopicsLog = ["Error decoding log"]
    ∧ BaseMonitor.decode_log_output malformedTopicsLog ≠ [] :=
  ⟨rfl, fun h =>
    List.noConfusion
      ((rfl : BaseMonitor.decode_log_output malformedTopicsLog
          = ["Error decoding log"]).symm.trans h)⟩

/-- Claim C4 as amended: both decoders are total on every input
dictionary — they return either a Transfer or None and never propagate an
exception (every raising operation of the body is caught); the multi-chain
decoder prints nothing on any input, while the base decoder prints exactly
one diagnostic line on the inputs whose body raises, and nothing
otherwise. -/
theorem decoder_total_never_raises_amended (log : List (String × Json)) :
    ((∃ t, MultiChain.decode_transfer_log log = some t)
        ∨ MultiChain.decode_transfer_log log = none)
    ∧ (∀ e, MultiChain.decodeTransferLogBody log = .error e →
        MultiChain.decode_transfer_log log = none)
    ∧ (∀ v, MultiChain.decodeTransferLogBody log = .ok v →
        MultiChain.decode_transfer_log log = v)
    ∧ MultiChain.decode_log_output log = []
    ∧ ((∃ t, BaseMonitor.decode_transfer_log log = some t)
        ∨ BaseMonitor.decode_transfer_log log = none)
    ∧ (∀ e, BaseMonitor.decodeTransferLogBody log = .error e →
        BaseMonitor.decode_transfer_log log = none
        ∧ BaseMonitor.decode_log_output log = ["Error decoding log"])
    ∧ (∀ v, BaseMonitor.decodeTransferLogBody log = .ok v →
        BaseMonitor.decode_transfer_log log = v
        ∧ BaseMonitor.decode_log_output log = []) := by
  refine ⟨?_, ?_, ?_, rfl, ?_, ?_, ?_⟩
  · cases h : MultiChain.decode_transfer_log log with
    | some t => exact Or.inl ⟨t, rfl⟩
    | none => exact Or.inr rfl
  · intro e he
    simp [MultiChain.decode_transfer_log, he]
  · intro v hv
    simp [MultiChain.decode_transfer_log, hv]
  · cases h : BaseMonitor.decode_transfer_log log with
    | some t => exact Or.inl ⟨t, rfl⟩
    | none => exact Or.inr rfl
  · intro e he
    constructor <;>
      simp [BaseMonitor.decode_transfer_log, BaseMonitor.decode_log_output, he]
  · intro v hv
    constructor <;>
      simp [BaseMonitor.decode_transfer_log, BaseMonitor.decode_log_output, hv]

/-- Witness for C4 at a concrete malformed input: both decoders catch the
raised `TypeError` and return None. -/
theorem decoder_total_witness :
    MultiChain.decode_transfer_log malformedTopicsLog = none
    ∧ BaseMonitor.decode_transfer_log malformedTopicsLog = none := by
  have h := decoder_total_never_raises_amended malformedTopicsLog
  exact ⟨h.2.1 () rfl, (h.2.2.2.2.2.1 () rfl).1⟩

/-- A well-formed Transfer log with three topics and an empty data
string. -/
def zeroDataLog : List (String × Json) :=
  [ ("topics", .arr
      [ .str "0xddf252ad1be2c89b69c2b068fc378daa952ba7f163c4a11628f55a4df523b3ef"
      , .str "0x000000000000000000000000aabbccddeeff00112233445566778899aabbccdd"
      , .str "0x000000000000000000000000ddccbbaa99887766554433221100ffeeddccbbaa" ])
  , ("data", .str "")
  , ("address", .str "0xABCDEF") ]

/-- Counterexample to claim C8: a log with three topics whose data field is
the empty string is NOT decoded to a zero-amount Transfer by the base
monitor's decoder — `int("", 16)` raises `ValueError` (the guard is only
`data != "0x"`), so the log is "not decodable". -/
theorem zero_data_empty_counterexample :
    dictGet zeroDataLog "data" (.str "0x0") = .str ""
    ∧ (pyLen (dictGet zeroDataLog "topics" (.arr []))) = .ok 3
    ∧ BaseMonitor.decode_transfer_log zeroDataLog = none :=
  ⟨rfl, rfl, rfl⟩

/-- Claim C8 as amended: for every log record with at least 3 topics whose
second and third topics are strings and whose address field is a string,
the multi-chain decoder returns a Transfer with raw amount zero both when
the data field is `"0x"` and when it is the empty string; the base
decoder does so only for `"0x"` — on an empty data string it raises
internally and returns "not decodable". -/
theorem zero_data_amended (log : List (String × Json)) (ts : List Json)
    (s1 s2 addr : String)
    (htop : dictGet log "topics" (.arr []) = .arr ts)
    (hlen : 3 ≤ ts.length)
    (h1 : ts[1]? = some (.str s1)) (h2 : ts[2]? = some (.str s2))
    (haddr : dictGet log "address" (.str "") = .str addr)
    (hdata : dictGet log "data" (.str "0x0") = .str "0x"
             ∨ dictGet log "data" (.str "0x0") = .str "") :
    (∃ t, MultiChain.decode_transfer_log log = some t ∧ t.amount_raw = 0)
    ∧ (dictGet log "data" (.str "0x0") = .str "0x" →
        ∃ t, BaseMonitor.decode_transfer_log log = some t ∧ t.amount_raw = 0)
    ∧ (dictGet log "data" (.str "0x0") = .str "" →
        BaseMonitor.decode_transfer_log log = none) := by
  have hlen' : ¬ ts.length < 3 := by omega
  have hemp : ("" : String).isEmpty = true := rfl
  refine ⟨?_, ?_, ?_⟩
  · rcases hdata with hd | hd <;>
      simp [MultiChain.decode_transfer_log, MultiChain.decodeTransferLogBody,
        htop, hd, haddr, h1, h2, pyLen, pyIndex, pyAddr40, pyLower, pyTruthy,
        isStr0x, hlen', hemp]
  · intro hd
    simp [BaseMonitor.decode_transfer_log, BaseMonitor.decodeTransferLogBody,
      htop, hd, haddr, h1, h2, pyLen, pyIndex, pyAddr40, pyLower,
      isStr0x, hlen', hemp]
  · intro hd
    simp [BaseMonitor.decode_transfer_log, BaseMonitor.decodeTransferLogBody,
      htop, hd, haddr, h1, h2, pyLen, pyIndex, pyAddr40, pyLower,
      isStr0x, pyIntBase16, hexParse?, hlen', hemp]

/-- Witness for C8 at the concrete empty-data log: the multi-chain decoder
yields a zero-amount Transfer while the base decoder yields None. -/
theorem zero_data_witness :
    (∃ t, MultiChain.decode_transfer_log zeroDataLog = some t ∧ t.amount_raw = 0)
    ∧ BaseMonitor.decode_transfer_log zeroDataLog = none := by
  have h := zero_data_amended zeroDataLog
    [ .str "0xddf252ad1be2c89b69c2b068fc378daa952ba7f163c4a11628f55a4df523b3ef"
    , .str "0x000000000000000000000000aabbccddeeff00112233445566778899aabbccdd"
    , .str "0x000000000000000000000000ddccbbaa99887766554433221100ffeeddccbbaa" ]
    "0x000000000000000000000000aabbccddeeff00112233445566778899aabbccdd"
    "0x000000000000000000000000ddccbbaa99887766554433221100ffeeddccbbaa"
    "0xABCDEF" rfl (Nat.le_refl 3) rfl rfl rfl (Or.inr rfl)
  exact ⟨h.1, h.2.2 rfl⟩

/-- `Int.log` is determined by its bracketing inequalities. -/
theorem intLog_eq_of_bounds {b : Nat} (hb : 1 < b) {q : ℚ} (hq : 0 < q) {e : Int}
    (h1 : (b : ℚ) ^ e ≤ q) (h2 : q < (b : ℚ) ^ (e + 1)) : Int.log b q = e := by
  have ha := (Int.zpow_le_iff_le_log hb hq).mp h1
  have hb' := (Int.lt_zpow_iff_log_lt hb hq).mp h2
  omega

/-- The half-even rounding of `x` is at least `⌊x⌋`. -/
theorem halfEvenRound_ge_floor (x : ℚ) : ⌊x⌋ ≤ halfEvenRound x := by
  unfold halfEvenRound
  split_ifs <;> omega

/-- The half-even rounding of `x` is at most `⌊x⌋ + 1`. -/
theorem halfEvenRound_le_floor_add_one (x : ℚ) : halfEvenRound x ≤ ⌊x⌋ + 1 := by
  unfold halfEvenRound
  split_ifs <;> omega

/-- Half-even rounding is exact on integers. -/
theorem halfEvenRound_intCast (n : Int) : halfEvenRound ((n : Int) : ℚ) = n := by
  unfold halfEvenRound
  rw [Int.floor_intCast]
  simp

/-- Half-even rounding is monotone. -/
theorem halfEvenRound_mono {x y : ℚ} (h : x ≤ y) :
    halfEvenRound x ≤ halfEvenRound y := by
  have hf : ⌊x⌋ ≤ ⌊y⌋ := Int.floor_le_floor h
  rcases lt_or_eq_of_le hf with hlt | heq
  · calc halfEvenRound x ≤ ⌊x⌋ + 1 := halfEvenRound_le_floor_add_one x
      _ ≤ ⌊y⌋ := by omega
      _ ≤ halfEvenRound y := halfEvenRound_ge_floor y
  · unfold halfEvenRound
    rw [← heq]
    split_ifs <;> first | omega | linarith

/-- `roundSig` on a positive argument, with the sign and absolute value
unfolded. -/
theorem roundSig_of_pos (b p : Nat) (q : ℚ) (hq : 0 < q) :
    roundSig b p q
      = (halfEvenRound (q * (b : ℚ) ^ ((p : Int) - 1 - Int.log b q)) : ℚ)
          * (b : ℚ) ^ (-((p : Int) - 1 - Int.log b q)) := by
  unfold roundSig
  rw [if_neg hq.ne', if_neg (not_lt.mpr hq.le), abs_of_pos hq, one_mul]

/-- Rounding to significant digits preserves nonnegativity. -/
theorem roundSig_nonneg (b p : Nat) (q : ℚ) (h : 0 ≤ q) :
    0 ≤ roundSig b p q := by
  rcases eq_or_lt_of_le h with h0 | h0
  · rw [← h0]
    simp [roundSig]
  · rw [roundSig_of_pos b p q h0]
    have hbnn : (0 : ℚ) ≤ (b : ℚ) := Nat.cast_nonneg b
    have hx : (0 : ℚ) ≤ q * (b : ℚ) ^ ((p : Int) - 1 - Int.log b q) :=
      mul_nonneg h0.le (zpow_nonneg hbnn _)
    have hm : (0 : Int) ≤ halfEvenRound (q * (b : ℚ) ^ ((p : Int) - 1 - Int.log b q)) :=
      le_trans (Int.floor_nonneg.mpr hx) (halfEvenRound_ge_floor _)
    exact mul_nonneg (by exact_mod_cast hm) (zpow_nonneg hbnn _)

/-- Rounding to `p` significant base-`b` digits is exact on every value of
the form `m * b^t` with `0 < m < b^p` — the representable values. -/
theorem roundSig_natMul_zpow (b p : Nat) (hb : 1 < b) (m : Nat) (hm0 : 0 < m)
    (hmp : m < b ^ p) (t : Int) :
    roundSig b p ((m : ℚ) * (b : ℚ) ^ t) = (m : ℚ) * (b : ℚ) ^ t := by
  have hbQ : (1 : ℚ) < (b : ℚ) := by exact_mod_cast hb
  have hb0 : (0 : ℚ) < (b : ℚ) := lt_trans one_pos hbQ
  have hm0Q : (0 : ℚ) < (m : ℚ) := by exact_mod_cast hm0
  have hq : 0 < (m : ℚ) * (b : ℚ) ^ t := mul_pos hm0Q (zpow_pos hb0 t)
  have hα1 : (b : ℚ) ^ ((Nat.log b m : ℕ) : Int) ≤ (m : ℚ) := by
    rw [zpow_natCast]
    exact_mod_cast Nat.pow_log_le_self b hm0.ne'
  have hα2 : (m : ℚ) < (b : ℚ) ^ (((Nat.log b m : ℕ) : Int) + 1) := by
    rw [show ((Nat.log b m : ℕ) : Int) + 1 = ((Nat.log b m + 1 : ℕ) : Int) by push_cast; ring,
      zpow_natCast]
    exact_mod_cast Nat.lt_pow_succ_log_self hb m
  have hlog : Int.log b ((m : ℚ) * (b : ℚ) ^ t) = (Nat.log b m : Int) + t := by
    apply intLog_eq_of_bounds hb hq
    · rw [zpow_add₀ (ne_of_gt hb0)]
      exact mul_le_mul_of_nonneg_right hα1 (zpow_nonneg hb0.le t)
    · rw [show (Nat.log b m : Int) + t + 1 = ((Nat.log b m : Int) + 1) + t by ring,
        zpow_add₀ (ne_of_gt hb0)]
      exact mul_lt_mul_of_pos_right hα2 (zpow_pos hb0 t)
  have hαp : Nat.log b m < p := Nat.log_lt_of_lt_pow hm0.ne' hmp
  have hkk : ((p - 1 - Nat.log b m : ℕ) : Int) = (p : Int) - 1 - (Nat.log b m : Int) := by
    omega
  rw [roundSig_of_pos b p _ hq, hlog]
  have hsx : (m : ℚ) * (b : ℚ) ^ t
        * (b : ℚ) ^ ((p : Int) - 1 - ((Nat.log b m : Int) + t))
      = (((m * b ^ (p - 1 - Nat.log b m) : ℕ) : Int) : ℚ) := by
    rw [mul_assoc, ← zpow_add₀ (ne_of_gt hb0),
      show t + ((p : Int) - 1 - ((Nat.log b m : Int) + t))
          = ((p - 1 - Nat.log b m : ℕ) : Int) by rw [hkk]; ring,
      zpow_natCast]
    push_cast
    ring
  rw [hsx, halfEvenRound_intCast,
    show (((m * b ^ (p - 1 - Nat.log b m) : ℕ) : Int) : ℚ)
        = (m : ℚ) * (b : ℚ) ^ ((p - 1 - Nat.log b m : ℕ) : Int) by
      rw [zpow_natCast]; push_cast; ring,
    mul_assoc, ← zpow_add₀ (ne_of_gt hb0),
    show ((p - 1 - Nat.log b m : ℕ) : Int)
          + -((p : Int) - 1 - ((Nat.log b m : Int) + t)) = t by rw [hkk]; ring]

/-- Rounding to `p` significant base-`b` digits is exact on positive
integers below `b^p`. -/
theorem roundSig_natCast (b p : Nat) (hb : 1 < b) (m : Nat) (hm0 : 0 < m)
    (hmp : m < b ^ p) : roundSig b p ((m : ℕ) : ℚ) = ((m : ℕ) : ℚ) := by
  have := roundSig_natMul_zpow b p hb m hm0 hmp 0
  simpa using this

/-- Evaluation of `roundSig` on a positive value that rounds down: if `e`
brackets `q` and the scaled value lies in `[n, n + 1/2)`, the result is
`n * b^(-(p-1-e))`. -/
theorem roundSig_eval_down (b p : Nat) (hb : 1 < b) (q : ℚ) (hq : 0 < q)
    (e n : Int) (he1 : (b : ℚ) ^ e ≤ q) (he2 : q < (b : ℚ) ^ (e + 1))
    (hn1 : (n : ℚ) ≤ q * (b : ℚ) ^ ((p : Int) - 1 - e))
    (hn2 : q * (b : ℚ) ^ ((p : Int) - 1 - e) < (n : ℚ) + 1/2) :
    roundSig b p q = (n : ℚ) * (b : ℚ) ^ (-((p : Int) - 1 - e)) := by
  have hlog := intLog_eq_of_bounds hb hq he1 he2
  rw [roundSig_of_pos b p q hq, hlog]
  have hfl : ⌊q * (b : ℚ) ^ ((p : Int) - 1 - e)⌋ = n :=
    Int.floor_eq_iff.mpr ⟨hn1, by linarith⟩
  have hn : halfEvenRound (q * (b : ℚ) ^ ((p : Int) - 1 - e)) = n := by
    unfold halfEvenRound
    rw [hfl, if_pos (by linarith)]
  rw [hn]

/-- Rounding to significant digits is monotone on nonnegative values. -/
theorem roundSig_mono (b p : Nat) (hb : 1 < b) (hp : 1 ≤ p) {q1 q2 : ℚ}
    (h0 : 0 ≤ q1) (h12 : q1 ≤ q2) : roundSig b p q1 ≤ roundSig b p q2 := by
  rcases eq_or_lt_of_le h0 with h01 | h01
  · rw [← h01, show roundSig b p 0 = 0 by simp [roundSig]]
    exact roundSig_nonneg b p q2 (le_trans h0 h12)
  · have h02 : 0 < q2 := lt_of_lt_of_le h01 h12
    have hbQ : (1 : ℚ) < (b : ℚ) := by exact_mod_cast hb
    have hb0 : (0 : ℚ) < (b : ℚ) := lt_trans one_pos hbQ
    have hlog : Int.log b q1 ≤ Int.log b q2 := Int.log_mono_right h01 h12
    rw [roundSig_of_pos b p q1 h01, roundSig_of_pos b p q2 h02]
    rcases eq_or_lt_of_le hlog with heq | hlt
    · rw [← heq]
      have hx : q1 * (b : ℚ) ^ ((p : Int) - 1 - Int.log b q1)
          ≤ q2 * (b : ℚ) ^ ((p : Int) - 1 - Int.log b q1) :=
        mul_le_mul_of_nonneg_right h12 (zpow_nonneg hb0.le _)
      exact mul_le_mul_of_nonneg_right
        (by exact_mod_cast halfEvenRound_mono hx) (zpow_nonneg hb0.le _)
    · set e1 := Int.log b q1 with he1
      set e2 := Int.log b q2 with he2
      set s1 : Int := (p : Int) - 1 - e1 with hs1
      set s2 : Int := (p : Int) - 1 - e2 with hs2
      have hx1 : q1 * (b : ℚ) ^ s1 < (b : ℚ) ^ (p : Int) := by
        calc q1 * (b : ℚ) ^ s1 < (b : ℚ) ^ (e1 + 1) * (b : ℚ) ^ s1 :=
              mul_lt_mul_of_pos_right (Int.lt_zpow_succ_log_self hb q1) (zpow_pos hb0 _)
          _ = (b : ℚ) ^ (p : Int) := by
              rw [← zpow_add₀ (ne_of_gt hb0)]
              congr 1
              omega
      have hm1 : halfEvenRound (q1 * (b : ℚ) ^ s1) ≤ ((b ^ p : ℕ) : Int) := by
        have hfl : ⌊q1 * (b : ℚ) ^ s1⌋ < ((b ^ p : ℕ) : Int) := by
          apply Int.floor_lt.mpr
          rw [show ((((b ^ p : ℕ) : Int)) : ℚ) = (b : ℚ) ^ (p : Int) by
            push_cast; rw [zpow_natCast]]
          exact hx1
        have := halfEvenRound_le_floor_add_one (q1 * (b : ℚ) ^ s1)
        omega
      have hx2 : (b : ℚ) ^ ((p : Int) - 1) ≤ q2 * (b : ℚ) ^ s2 := by
        calc (b : ℚ) ^ ((p : Int) - 1) = (b : ℚ) ^ e2 * (b : ℚ) ^ s2 := by
              rw [← zpow_add₀ (ne_of_gt hb0)]
              congr 1
              omega
          _ ≤ q2 * (b : ℚ) ^ s2 :=
              mul_le_mul_of_nonneg_right (Int.zpow_log_le_self hb h02)
                (zpow_nonneg hb0.le _)
      have hcast : (((b ^ (p - 1) : ℕ) : Int) : ℚ) = (b : ℚ) ^ ((p : Int) - 1) := by
        push_cast
        rw [← zpow_natCast (b : ℚ) (p - 1)]
        congr 1
        omega
      have hm2 : ((b ^ (p - 1) : ℕ) : Int) ≤ halfEvenRound (q2 * (b : ℚ) ^ s2) := by
        have hfl : ((b ^ (p - 1) : ℕ) : Int) ≤ ⌊q2 * (b : ℚ) ^ s2⌋ := by
          apply Int.le_floor.mpr
          rw [hcast]
          exact hx2
        exact le_trans hfl (halfEvenRound_ge_floor _)
      calc (halfEvenRound (q1 * (b : ℚ) ^ s1) : ℚ) * (b : ℚ) ^ (-s1)
          ≤ (b : ℚ) ^ (p : Int) * (b : ℚ) ^ (-s1) := by
            apply mul_le_mul_of_nonneg_right _ (zpow_nonneg hb0.le _)
            calc ((halfEvenRound (q1 * (b : ℚ) ^ s1)) : ℚ)
                ≤ (((b ^ p : ℕ) : Int) : ℚ) := by exact_mod_cast hm1
              _ = (b : ℚ) ^ (p : Int) := by push_cast; rw [zpow_natCast]
        _ = (b : ℚ) ^ (e1 + 1) := by
            rw [← zpow_add₀ (ne_of_gt hb0)]
            congr 1
            omega
        _ ≤ (b : ℚ) ^ e2 := zpow_le_zpow_right₀ hbQ.le (by omega)
        _ = (b : ℚ) ^ ((p : Int) - 1) * (b : ℚ) ^ (-s2) := by
            rw [← zpow_add₀ (ne_of_gt hb0)]
            congr 1
            omega
        _ ≤ (halfEvenRound (q2 * (b : ℚ) ^ s2) : ℚ) * (b : ℚ) ^ (-s2) := by
            apply mul_le_mul_of_nonneg_right _ (zpow_nonneg hb0.le _)
            rw [← hcast]
            exact_mod_cast hm2

/-- Binary64 conversion is exact on positive integers below `2^53`. -/
theorem pyFloat_natCast (m : ℕ) (hm0 : 0 < m) (hm : m < 2 ^ 53) :
    pyFloat ((m : ℕ) : ℚ) = ((m : ℕ) : ℚ) := by
  unfold pyFloat
  exact roundSig_natCast 2 53 (by norm_num) m hm0 hm

/-- Binary64 multiplication is exact when the integer product stays below
`2^53`. -/
theorem pyFloatMul_natCast (x y : ℕ) (h0 : 0 < x * y) (h : x * y < 2 ^ 53) :
    pyFloatMul ((x : ℕ) : ℚ) ((y : ℕ) : ℚ) = ((x * y : ℕ) : ℚ) := by
  unfold pyFloatMul
  rw [show ((x : ℚ) * (y : ℚ)) = ((x * y : ℕ) : ℚ) by push_cast; ring]
  exact roundSig_natCast 2 53 (by norm_num) (x * y) h0 h

/-- The Decimal quotient of `10^18 + 1` by `10^18` is exact: its 19
significant digits fit the 28-digit context. -/
theorem pyDecimalDiv_pow18_succ :
    pyDecimalDiv (10 ^ 18 + 1) 18 = ((10 : ℚ) ^ 18 + 1) / 10 ^ 18 := by
  unfold pyDecimalDiv
  rw [show (((10 ^ 18 + 1 : Int)) : ℚ) / 10 ^ (18 : ℕ)
      = ((10 ^ 18 + 1 : ℕ) : ℚ) * ((10 : ℕ) : ℚ) ^ (-(18 : Int)) by norm_num]
  rw [roundSig_natMul_zpow 10 28 (by norm_num) (10 ^ 18 + 1) (by norm_num)
    (by norm_num) (-18)]
  norm_num

/-- The Decimal quotient of `10^18` by `10^18` is exactly one. -/
theorem pyDecimalDiv_pow18 : pyDecimalDiv (10 ^ 18) 18 = ((1 : ℕ) : ℚ) := by
  unfold pyDecimalDiv
  rw [show (((10 ^ 18 : Int)) : ℚ) / 10 ^ (18 : ℕ) = ((1 : ℕ) : ℚ) by norm_num]
  exact roundSig_natCast 10 28 (by norm_num) 1 (by norm_num) (by norm_num)

/-- The Decimal quotient of `1,000,000` by `10^6` is exactly one. -/
theorem pyDecimalDiv_million : pyDecimalDiv 1000000 6 = ((1 : ℕ) : ℚ) := by
  unfold pyDecimalDiv
  rw [show (((1000000 : Int)) : ℚ) / 10 ^ (6 : ℕ) = ((1 : ℕ) : ℚ) by norm_num]
  exact roundSig_natCast 10 28 (by norm_num) 1 (by norm_num) (by norm_num)

/-- Binary64 conversion collapses `1 + 10^-18` to `1.0`: the offset is far
below half the spacing `2^-52` of doubles near one. -/
theorem pyFloat_one_plus_eps :
    pyFloat (((10 : ℚ) ^ 18 + 1) / 10 ^ 18) = 1 := by
  unfold pyFloat
  have hq : (0 : ℚ) < ((10 : ℚ) ^ 18 + 1) / 10 ^ 18 := by positivity
  rw [roundSig_eval_down 2 53 (by norm_num) _ hq 0 (2 ^ 52)
    (by norm_num) (by norm_num) (by norm_num) (by norm_num)]
  norm_num

/-- Binary64 conversion collapses `2500 + 10^-18` to `2500.0`: the offset
is far below half the spacing `2^-41` of doubles near 2500. -/
theorem pyFloat_2500_plus_eps :
    pyFloat (2500 + 1 / 10 ^ 18) = 2500 := by
  unfold pyFloat
  have hq : (0 : ℚ) < 2500 + 1 / 10 ^ 18 := by positivity
  rw [roundSig_eval_down 2 53 (by norm_num) _ hq 11 (2500 * 2 ^ 41)
    (by norm_num) (by norm_num) (by norm_num) (by norm_num)]
  norm_num

/-- The valuation result on a token found in the mapping, as computed by
the source: Decimal division to 28 digits, binary64 conversion, binary64
multiplication by the float price. -/
theorem calculate_usd_value_eq (tokens : List (String × TokenInfo))
    (contract : String) (a : Int) (ti : TokenInfo)
    (h : tokens.lookup (strToLower contract) = some ti) :
    MultiChain.calculate_usd_value tokens contract a
      = some (pyFloatMul (pyFloat (pyDecimalDiv a ti.decimals))
          (pyFloat ti.price_usd), ti.symbol) := by
  simp [MultiChain.calculate_usd_value, h]

/-- Counterexample to claim C5: the valuation is not the exact rational
formula `(rawAmount / 10^decimals) × price`. At the configured 18-decimal
WETH.e token (price 2500.0), the raw amount `10^18 + 1` is valued at
exactly `2500`: the Decimal quotient `1.000000000000000001` collapses to
`1.0` when converted to binary64, while the exact formula gives
`2500 + 2500·10^-18`. -/
theorem valuation_exact_formula_counterexample :
    MultiChain.calculate_usd_value MultiChain.avalancheConfig.tokens
        "0x49d5c2bdffac6ce2bfdb6640f4f80f226bc10bab" (10 ^ 18 + 1)
      = some (2500, "WETH.e")
    ∧ (2500 : ℚ) ≠ (((10 ^ 18 + 1 : Int)) : ℚ) / 10 ^ 18 * 2500 := by
  constructor
  · rw [calculate_usd_value_eq MultiChain.avalancheConfig.tokens
      "0x49d5c2bdffac6ce2bfdb6640f4f80f226bc10bab" (10 ^ 18 + 1)
      ⟨"WETH.e", 18, 2500.0⟩ rfl]
    rw [show (⟨"WETH.e", 18, 2500.0⟩ : TokenInfo).decimals = 18 from rfl,
      show (⟨"WETH.e", 18, 2500.0⟩ : TokenInfo).price_usd = ((2500 : ℕ) : ℚ) by norm_num,
      show (⟨"WETH.e", 18, 2500.0⟩ : TokenInfo).symbol = "WETH.e" from rfl]
    rw [pyDecimalDiv_pow18_succ, pyFloat_one_plus_eps,
      pyFloat_natCast 2500 (by norm_num) (by norm_num)]
    rw [show (1 : ℚ) = ((1 : ℕ) : ℚ) by norm_num,
      pyFloatMul_natCast 1 2500 (by norm_num) (by norm_num)]
    norm_num
  · norm_num

/-- Claim C5 as amended: for every contract present in the token mapping
and every raw amount, the valuation computes
`float(Decimal(rawAmount) / Decimal(10^decimals)) × price` — the exact
formula subject to 28-significant-digit decimal rounding and binary64
rounding of the conversion and of the multiplication, not the exact
rational formula in general. Scaling by `10^-decimals` is exact for
whole-token raw amounts whose unit count stays below `2^53`; in
particular a raw amount of 1,000,000 at 6 decimals and price 1.0 is
valued at exactly 1.0. -/
theorem valuation_rounded_formula_amended
    (tokens : List (String × TokenInfo)) (contract : String) (a : Int)
    (ti : TokenInfo) (h : tokens.lookup (strToLower contract) = some ti) :
    MultiChain.calculate_usd_value tokens contract a
      = some (pyFloatMul (pyFloat (pyDecimalDiv a ti.decimals))
          (pyFloat ti.price_usd), ti.symbol)
    ∧ (∀ ti', BaseMonitor.TOP_TOKENS.lookup (strToLower contract) = some ti' →
        BaseMonitor.calculate_usd_value contract a
          = some (pyFloatMul (pyFloat (pyDecimalDiv a ti'.decimals))
              (pyFloat ti'.price_usd)))
    ∧ (∀ m : ℕ, 0 < m → m < 2 ^ 53 →
        pyFloat (pyDecimalDiv (((m : ℕ) : Int) * 10 ^ ti.decimals) ti.decimals)
          = ((m : ℕ) : ℚ))
    ∧ MultiChain.calculate_usd_value BaseMonitor.TOP_TOKENS
        "0x833589fcd6edb6e08f4c7c32d4f71b54bda02913" 1000000
      = some (1, "USDC") := by
  refine ⟨calculate_usd_value_eq tokens contract a ti h, ?_, ?_, ?_⟩
  · intro ti' h'
    simp [BaseMonitor.calculate_usd_value, h']
  · intro m hm0 hm53
    have hq : ((((m : ℕ) : Int) * 10 ^ ti.decimals : Int) : ℚ) / 10 ^ ti.decimals
        = ((m : ℕ) : ℚ) := by
      push_cast
      rw [mul_div_assoc, div_self (ne_of_gt (by positivity)), mul_one]
    unfold pyDecimalDiv
    rw [hq, roundSig_natCast 10 28 (by norm_num) m hm0
      (lt_of_lt_of_le hm53 (by norm_num))]
    exact pyFloat_natCast m hm0 hm53
  · rw [calculate_usd_value_eq BaseMonitor.TOP_TOKENS
      "0x833589fcd6edb6e08f4c7c32d4f71b54bda02913" 1000000 ⟨"USDC", 6, 1.0⟩ rfl]
    rw [show (⟨"USDC", 6, 1.0⟩ : TokenInfo).decimals = 6 from rfl,
      show (⟨"USDC", 6, 1.0⟩ : TokenInfo).price_usd = ((1 : ℕ) : ℚ) by norm_num,
      show (⟨"USDC", 6, 1.0⟩ : TokenInfo).symbol = "USDC" from rfl]
    rw [pyDecimalDiv_million, pyFloat_natCast 1 (by norm_num) (by norm_num),
      pyFloatMul_natCast 1 1 (by norm_num) (by norm_num)]
    norm_num

/-- Witness for C5 as amended, at the configured USDC token and at a
whole-token amount. -/
theorem valuation_rounded_formula_witness :
    MultiChain.calculate_usd_value BaseMonitor.TOP_TOKENS
        "0x833589fcd6edb6e08f4c7c32d4f71b54bda02913" 1000000
      = some (1, "USDC")
    ∧ pyFloat (pyDecimalDiv (((5 : ℕ) : Int) * 10 ^ 6) 6) = ((5 : ℕ) : ℚ) := by
  have h := valuation_rounded_formula_amended BaseMonitor.TOP_TOKENS
    "0x833589fcd6edb6e08f4c7c32d4f71b54bda02913" 1000000 ⟨"USDC", 6, 1.0⟩ rfl
  exact ⟨h.2.2.2, h.2.2.1 5 (by norm_num) (by norm_num)⟩

/-- Counterexample to claim C6: the valuation is not strictly increasing
in the raw amount, nor in the price. The raw amounts `10^18 < 10^18 + 1`
on the 18-decimal WETH.e token are both valued at exactly `2500`; and two
18-decimal tokens whose configured prices are `2500 < 2500 + 10^-18`
value the raw amount `10^18` identically, because both price literals
become the same binary64 float. -/
theorem valuation_strict_monotone_counterexample :
    MultiChain.calculate_usd_value MultiChain.avalancheConfig.tokens
        "0x49d5c2bdffac6ce2bfdb6640f4f80f226bc10bab" (10 ^ 18)
      = some (2500, "WETH.e")
    ∧ MultiChain.calculate_usd_value MultiChain.avalancheConfig.tokens
        "0x49d5c2bdffac6ce2bfdb6640f4f80f226bc10bab" (10 ^ 18 + 1)
      = some (2500, "WETH.e")
    ∧ (10 ^ 18 : Int) < 10 ^ 18 + 1
    ∧ ¬ ((2500 : ℚ) < 2500)
    ∧ MultiChain.calculate_usd_value
        [("0xaaa", ⟨"TOK", 18, 2500 + 1 / 10 ^ 18⟩)] "0xaaa" (10 ^ 18)
      = some (2500, "TOK")
    ∧ (2500 : ℚ) < 2500 + 1 / 10 ^ 18 := by
  have hval18 : pyFloat (pyDecimalDiv (10 ^ 18) 18) = ((1 : ℕ) : ℚ) := by
    rw [pyDecimalDiv_pow18]
    exact pyFloat_natCast 1 (by norm_num) (by norm_num)
  refine ⟨?_, ?_, by norm_num, by norm_num, ?_, by norm_num⟩
  · rw [calculate_usd_value_eq MultiChain.avalancheConfig.tokens
      "0x49d5c2bdffac6ce2bfdb6640f4f80f226bc10bab" (10 ^ 18)
      ⟨"WETH.e", 18, 2500.0⟩ rfl]
    rw [show (⟨"WETH.e", 18, 2500.0⟩ : TokenInfo).decimals = 18 from rfl,
      show (⟨"WETH.e", 18, 2500.0⟩ : TokenInfo).price_usd = ((2500 : ℕ) : ℚ) by norm_num,
      show (⟨"WETH.e", 18, 2500.0⟩ : TokenInfo).symbol = "WETH.e" from rfl]
    rw [hval18, pyFloat_natCast 2500 (by norm_num) (by norm_num),
      pyFloatMul_natCast 1 2500 (by norm_num) (by norm_num)]
    norm_num
  · rw [calculate_usd_value_eq MultiChain.avalancheConfig.tokens
      "0x49d5c2bdffac6ce2bfdb6640f4f80f226bc10bab" (10 ^ 18 + 1)
      ⟨"WETH.e", 18, 2500.0⟩ rfl]
    rw [show (⟨"WETH.e", 18, 2500.0⟩ : TokenInfo).decimals = 18 from rfl,
      show (⟨"WETH.e", 18, 2500.0⟩ : TokenInfo).price_usd = ((2500 : ℕ) : ℚ) by norm_num,
      show (⟨"WETH.e", 18, 2500.0⟩ : TokenInfo).symbol = "WETH.e" from rfl]
    rw [pyDecimalDiv_pow18_succ, pyFloat_one_plus_eps,
      pyFloat_natCast 2500 (by norm_num) (by norm_num)]
    rw [show (1 : ℚ) = ((1 : ℕ) : ℚ) by norm_num,
      pyFloatMul_natCast 1 2500 (by norm_num) (by norm_num)]
    norm_num
  · rw [calculate_usd_value_eq [("0xaaa", ⟨"TOK", 18, 2500 + 1 / 10 ^ 18⟩)]
      "0xaaa" (10 ^ 18) ⟨"TOK", 18, 2500 + 1 / 10 ^ 18⟩ rfl]
    rw [show (⟨"TOK", 18, 2500 + 1 / 10 ^ 18⟩ : TokenInfo).decimals = 18 from rfl,
      show (⟨"TOK", 18, 2500 + 1 / 10 ^ 18⟩ : TokenInfo).price_usd
        = (2500 + 1 / 10 ^ 18 : ℚ) from rfl,
      show (⟨"TOK", 18, 2500 + 1 / 10 ^ 18⟩ : TokenInfo).symbol = "TOK" from rfl]
    rw [hval18, pyFloat_2500_plus_eps]
    rw [show (2500 : ℚ) = ((2500 : ℕ) : ℚ) by norm_num,
      pyFloatMul_natCast 1 2500 (by norm_num) (by norm_num)]

/-- Claim C6 as amended: over a token present in the mapping with a
nonnegative price, the valuation is monotone non-decreasing (not strictly
increasing) in the raw amount, and, with decimals fixed, monotone
non-decreasing in the price — each rounding step (Decimal division,
binary64 conversion, binary64 multiplication) is monotone, but distinct
inputs can round to equal values. -/
theorem valuation_monotone_nondecreasing_amended
    (tokens tokens' : List (String × TokenInfo)) (contract : String)
    (ti ti' : TokenInfo)
    (h : tokens.lookup (strToLower contract) = some ti)
    (h' : tokens'.lookup (strToLower contract) = some ti')
    (hp : 0 ≤ ti.price_usd) :
    (∀ a1 a2 : Int, 0 ≤ a1 → a1 ≤ a2 → ∀ v1 v2 s1 s2,
        MultiChain.calculate_usd_value tokens contract a1 = some (v1, s1) →
        MultiChain.calculate_usd_value tokens contract a2 = some (v2, s2) →
        v1 ≤ v2)
    ∧ (∀ a : Int, 0 ≤ a → ti'.decimals = ti.decimals →
        ti.price_usd ≤ ti'.price_usd → ∀ v v' s s',
        MultiChain.calculate_usd_value tokens contract a = some (v, s) →
        MultiChain.calculate_usd_value tokens' contract a = some (v', s') →
        v ≤ v') := by
  have hP : 0 ≤ pyFloat ti.price_usd := roundSig_nonneg 2 53 ti.price_usd hp
  constructor
  · intro a1 a2 ha0 ha12 v1 v2 s1 s2 hv1 hv2
    rw [calculate_usd_value_eq tokens contract a1 ti h] at hv1
    rw [calculate_usd_value_eq tokens contract a2 ti h] at hv2
    have e1 : v1 = pyFloatMul (pyFloat (pyDecimalDiv a1 ti.decimals))
        (pyFloat ti.price_usd) := (congrArg Prod.fst (Option.some.inj hv1)).symm
    have e2 : v2 = pyFloatMul (pyFloat (pyDecimalDiv a2 ti.decimals))
        (pyFloat ti.price_usd) := (congrArg Prod.fst (Option.some.inj hv2)).symm
    rw [e1, e2]
    have ha0Q : (0 : ℚ) ≤ (a1 : ℚ) := by exact_mod_cast ha0
    have hq0 : (0 : ℚ) ≤ (a1 : ℚ) / 10 ^ ti.decimals :=
      div_nonneg ha0Q (by positivity)
    have haQ : (a1 : ℚ) ≤ (a2 : ℚ) := by exact_mod_cast ha12
    have hq12 : (a1 : ℚ) / 10 ^ ti.decimals ≤ (a2 : ℚ) / 10 ^ ti.decimals := by
      gcongr
    have hdec : pyDecimalDiv a1 ti.decimals ≤ pyDecimalDiv a2 ti.decimals :=
      roundSig_mono 10 28 (by norm_num) (by norm_num) hq0 hq12
    have hdec0 : 0 ≤ pyDecimalDiv a1 ti.decimals := roundSig_nonneg 10 28 _ hq0
    have hfl : pyFloat (pyDecimalDiv a1 ti.decimals)
        ≤ pyFloat (pyDecimalDiv a2 ti.decimals) :=
      roundSig_mono 2 53 (by norm_num) (by norm_num) hdec0 hdec
    have hfl0 : 0 ≤ pyFloat (pyDecimalDiv a1 ti.decimals) :=
      roundSig_nonneg 2 53 _ hdec0
    exact roundSig_mono 2 53 (by norm_num) (by norm_num)
      (mul_nonneg hfl0 hP) (mul_le_mul_of_nonneg_right hfl hP)
  · intro a ha0 hd hpp v v' s s' hv hv'
    rw [calculate_usd_value_eq tokens contract a ti h] at hv
    rw [calculate_usd_value_eq tokens' contract a ti' h'] at hv'
    have e1 : v = pyFloatMul (pyFloat (pyDecimalDiv a ti.decimals))
        (pyFloat ti.price_usd) := (congrArg Prod.fst (Option.some.inj hv)).symm
    have e2 : v' = pyFloatMul (pyFloat (pyDecimalDiv a ti'.decimals))
        (pyFloat ti'.price_usd) := (congrArg Prod.fst (Option.some.inj hv')).symm
    rw [e1, e2, hd]
    have ha0Q : (0 : ℚ) ≤ (a : ℚ) := by exact_mod_cast ha0
    have hq0 : (0 : ℚ) ≤ (a : ℚ) / 10 ^ ti.decimals :=
      div_nonneg ha0Q (by positivity)
    have hdec0 : 0 ≤ pyDecimalDiv a ti.decimals := roundSig_nonneg 10 28 _ hq0
    have hfl0 : 0 ≤ pyFloat (pyDecimalDiv a ti.decimals) :=
      roundSig_nonneg 2 53 _ hdec0
    have hPmono : pyFloat ti.price_usd ≤ pyFloat ti'.price_usd :=
      roundSig_mono 2 53 (by norm_num) (by norm_num) hp hpp
    exact roundSig_mono 2 53 (by norm_num) (by norm_num)
      (mul_nonneg hfl0 hP) (mul_le_mul_of_nonneg_left hPmono hfl0)

/-- Witness for C6 as amended: a zero-decimals token with price 2 values
raw amounts 3 and 5 at exactly 6 and 10, and 6 ≤ 10. -/
theorem valuation_monotone_nondecreasing_witness :
    (0 : ℚ) ≤ 2 ∧ ((6 : ℚ) ≤ 10) := by
  have hvals : ∀ n : ℕ, 0 < n → n < 1000 →
      MultiChain.calculate_usd_value [("0xaaa", ⟨"TOK", 0, 2⟩)] "0xaaa" ((n : ℕ) : Int)
        = some (((2 * n : ℕ) : ℚ), "TOK") := by
    intro n hn0 hn
    rw [calculate_usd_value_eq [("0xaaa", ⟨"TOK", 0, 2⟩)] "0xaaa" ((n : ℕ) : Int)
      ⟨"TOK", 0, 2⟩ rfl]
    rw [show (⟨"TOK", 0, 2⟩ : TokenInfo).decimals = 0 from rfl,
      show (⟨"TOK", 0, 2⟩ : TokenInfo).price_usd = ((2 : ℕ) : ℚ) by norm_num,
      show (⟨"TOK", 0, 2⟩ : TokenInfo).symbol = "TOK" from rfl]
    rw [show pyDecimalDiv ((n : ℕ) : Int) 0 = ((n : ℕ) : ℚ) by
      unfold pyDecimalDiv
      rw [show ((((n : ℕ) : Int)) : ℚ) / 10 ^ (0 : ℕ) = ((n : ℕ) : ℚ) by norm_num]
      exact roundSig_natCast 10 28 (by norm_num) n hn0 (by omega)]
    rw [pyFloat_natCast n hn0 (by omega), pyFloat_natCast 2 (by norm_num) (by norm_num),
      pyFloatMul_natCast n 2 (by omega) (by omega)]
    rw [show (n * 2 : ℕ) = (2 * n : ℕ) by omega]
  have h := valuation_monotone_nondecreasing_amended
    [("0xaaa", ⟨"TOK", 0, 2⟩)] [("0xaaa", ⟨"TOK", 0, 2⟩)] "0xaaa"
    ⟨"TOK", 0, 2⟩ ⟨"TOK", 0, 2⟩ rfl rfl (by norm_num)
  refine ⟨by norm_num, ?_⟩
  have h6 := hvals 3 (by norm_num) (by norm_num)
  have h10 := hvals 5 (by norm_num) (by norm_num)
  have := h.1 ((3 : ℕ) : Int) ((5 : ℕ) : Int) (by norm_num) (by norm_num)
    ((6 : ℕ) : ℚ) ((10 : ℕ) : ℚ) "TOK" "TOK"
    (by rw [h6]) (by rw [h10])
  exact_mod_cast this

end Evmscn
